import Mathlib

/-!
# Verification of the `bevy_sprite` render module
A shallow embedding of `crates/bevy_sprite/src/render/mod.rs`: sprite
extraction (`extract_sprites`), the batching/preparation pass
(`prepare_sprites`), the asset-event step of `queue_sprites`, and the
`SpritePipelineKey` bitfield.  Machine integers are modelled as `Nat`/`Int`;
values that the claims never inspect (2-vectors, rectangles, colors, GPU
objects) are modelled as opaque tokens carrying only equality, which is the
only operation the embedded code performs on them.
-/

/-- `HandleId`: opaque asset-handle identity.  The source only compares
handles for equality and order (`cmp`) and uses them as map keys, so a
natural number models it faithfully. -/
abbrev HandleId := Nat

/-- `Color`: the source only tests colors for equality against
`Color::WHITE` and threads them through, so an opaque token suffices. -/
abbrev Color := Nat

/-- The distinguished `Color::WHITE` value. -/
def Color.WHITE : Color := 0

/-- Opaque token for `Vec2` values (sizes, anchors).  The embedded code
only stores and copies them. -/
abbrev Vec2 := Nat

/-- The `Vec2::ZERO` initial value of `current_image_size`. -/
def Vec2.ZERO : Vec2 := 0

/-- Opaque token for `Rect` (an atlas sub-rectangle).  The embedded code
only copies rectangles out of `TextureAtlas::textures`. -/
abbrev Rect := Nat

/-- `GlobalTransform`: only `translation.z` is inspected by the embedded
code (for sorting and for `z_order`); the remaining affine components feed
only the vertex float payload, which no claim mentions, so they are
omitted.  `z` is modelled as `Int` (a totally ordered stand-in for the
non-NaN `f32` depths). -/
structure GlobalTransform where
  z : Int
deriving DecidableEq, Repr

/-- `ExtractedSprite` (fields in source order; `transform` keeps only the
depth component, see `GlobalTransform`). -/
structure ExtractedSprite where
  transform : GlobalTransform
  color : Color
  rect : Option Rect
  custom_size : Option Vec2
  image_handle_id : HandleId
  flip_x : Bool
  flip_y : Bool
  anchor : Vec2
deriving DecidableEq, Repr

/-- The fields of the `Sprite` component read by `extract_sprites`. -/
structure Sprite where
  color : Color
  custom_size : Option Vec2
  flip_x : Bool
  flip_y : Bool
  anchor : Vec2
deriving DecidableEq, Repr

/-- The fields of the `TextureAtlasSprite` component read by
`extract_sprites`. -/
structure TextureAtlasSprite where
  color : Color
  index : Nat
  custom_size : Option Vec2
  flip_x : Bool
  flip_y : Bool
  anchor : Vec2
deriving DecidableEq, Repr

/-- The fields of `TextureAtlas` read by `extract_sprites`: the shared
texture handle and the ordered list of sub-rectangles. -/
structure TextureAtlas where
  texture : HandleId
  textures : List Rect
deriving DecidableEq, Repr

/-- One row of the plain-sprite query
`(&Visibility, &Sprite, &GlobalTransform, &Handle<Image>)`. -/
structure SpriteQueryItem where
  is_visible : Bool
  sprite : Sprite
  transform : GlobalTransform
  handle : HandleId
deriving DecidableEq, Repr

/-- One row of the atlas-sprite query
`(&Visibility, &TextureAtlasSprite, &GlobalTransform, &Handle<TextureAtlas>)`. -/
structure AtlasQueryItem where
  is_visible : Bool
  atlas_sprite : TextureAtlasSprite
  transform : GlobalTransform
  texture_atlas_handle : HandleId
deriving DecidableEq, Repr

/-- First loop of `extract_sprites`: every visible plain sprite appends one
`ExtractedSprite` (with `rect := none`) to the accumulated list.  The
source pushes onto `extracted_sprites.sprites` without clearing it, so the
prior contents are the initial accumulator. -/
def extractPlainSprites (acc : List ExtractedSprite) (q : List SpriteQueryItem) :
    List ExtractedSprite :=
  q.foldl
    (fun acc item =>
      if item.is_visible then
        acc ++ [{ transform := item.transform
                  color := item.sprite.color
                  rect := none
                  custom_size := item.sprite.custom_size
                  image_handle_id := item.handle
                  flip_x := item.sprite.flip_x
                  flip_y := item.sprite.flip_y
                  anchor := item.sprite.anchor }]
      else acc)
    acc

/-- Second loop of `extract_sprites`: every visible atlas sprite whose
atlas resolves appends one `ExtractedSprite`; an unresolvable atlas is
silently skipped.  The sub-rectangle is read by the *unchecked* index
`texture_atlas.textures[atlas_sprite.index as usize]`, so an out-of-bounds
index is a panic, embedded as `none`. -/
def extractAtlasSprites (texture_atlases : HandleId → Option TextureAtlas)
    (acc : List ExtractedSprite) (q : List AtlasQueryItem) :
    Option (List ExtractedSprite) :=
  match q with
  | [] => some acc
  | item :: rest =>
    if item.is_visible then
      match texture_atlases item.texture_atlas_handle with
      | some texture_atlas =>
        match texture_atlas.textures.get? item.atlas_sprite.index with
        | some r =>
          extractAtlasSprites texture_atlases
            (acc ++ [{ transform := item.transform
                       color := item.atlas_sprite.color
                       rect := some r
                       custom_size := item.atlas_sprite.custom_size
                       image_handle_id := texture_atlas.texture
                       flip_x := item.atlas_sprite.flip_x
                       flip_y := item.atlas_sprite.flip_y
                       anchor := item.atlas_sprite.anchor }])
            rest
        | none => none
      | none => extractAtlasSprites texture_atlases acc rest
    else extractAtlasSprites texture_atlases acc rest

/-- `extract_sprites`: both query loops in source order (plain sprites
first, then atlas sprites), starting from the prior contents of the
`ExtractedSprites` resource.  `none` models the panic of the unchecked
atlas index. -/
def extract_sprites (prior : List ExtractedSprite)
    (texture_atlases : HandleId → Option TextureAtlas)
    (sprite_query : List SpriteQueryItem) (atlas_query : List AtlasQueryItem) :
    Option (List ExtractedSprite) :=
  extractAtlasSprites texture_atlases (extractPlainSprites prior sprite_query) atlas_query

/-- The `z.partial_cmp` of the sort comparator.  Depths are modelled as
`Int`, where `partial_cmp` is total (`None` arises only from NaN floats,
which the embedding excludes); the `Some(Ordering::Equal) | None` arm of
the source therefore collapses to the `Ordering.eq` arm. -/
def zPartialCmp (a b : Int) : Ordering :=
  if a < b then .lt else if b < a then .gt else .eq

/-- `HandleId::cmp` for the tie-break. -/
def handleCmp (a b : HandleId) : Ordering :=
  if a < b then .lt else if b < a then .gt else .eq

/-- The comparator closure passed to `sort_unstable_by` in
`prepare_sprites`: compare depths, break ties by texture handle. -/
def spriteCmp (a b : ExtractedSprite) : Ordering :=
  match zPartialCmp a.transform.z b.transform.z with
  | .eq => handleCmp a.image_handle_id b.image_handle_id
  | other => other

/-- The sort step of `prepare_sprites`.  `Vec::sort_unstable_by` is a
library call (not in this repository); it is modelled by insertion sort
with the same comparator, a sort that is correct for every total
comparator and hence a valid refinement of `sort_unstable_by`. -/
def sortSprites (sprites : List ExtractedSprite) : List ExtractedSprite :=
  List.insertionSort (fun a b => spriteCmp a b ≠ Ordering.gt) sprites

/-- `SpriteBatch` (the `range: Range<u32>` field is split into
`range_start`/`range_stop`; vertex indices are modelled as `Nat`, `z_order`
as `Int` like the transform depth it copies). -/
structure SpriteBatch where
  range_start : Nat
  range_stop : Nat
  image_handle_id : HandleId
  colored : Bool
  z_order : Int
deriving DecidableEq, Repr

/-- The mutable state of the `prepare_sprites` loop.  The two
`BufferVec`s are modelled as lists of *quads*: each entry records the
sprite whose six vertices (`QUAD_INDICES`) the source pushes, because no
claim inspects the float payload of a vertex; the `white_stop`/
`colored_stop` counters still advance by six per quad exactly as the
source's `*_end` counters do.  `current_batch_handle` starts from the
source's "impossible" sentinel id, embedded as `none`. -/
structure PrepState where
  vertices : List ExtractedSprite
  colored_vertices : List ExtractedSprite
  current_batch_handle : Option HandleId
  current_image_size : Vec2
  current_batch_colored : Bool
  z_order : Int
  white_start : Nat
  white_stop : Nat
  colored_start : Nat
  colored_stop : Nat
  batches : List SpriteBatch
deriving DecidableEq, Repr

/-- The initial `PrepState`: cleared vertex buffers, sentinel batch
handle, `current_image_size = Vec2::ZERO`, `current_batch_colored =
false`, `z_order = 0.0`, all four index counters `0`, no batches spawned
yet. -/
def initPrepState : PrepState :=
  { vertices := []
    colored_vertices := []
    current_batch_handle := none
    current_image_size := Vec2.ZERO
    current_batch_colored := false
    z_order := 0
    white_start := 0
    white_stop := 0
    colored_start := 0
    colored_stop := 0
    batches := [] }

/-- The vertex-writing tail of the loop body: push the six quad vertices
of `s` into the buffer selected by `colored`, advance that buffer's end
counter by `QUAD_INDICES.len() = 6`, and record `z_order =
extracted_sprite.transform.translation.z`. -/
def writeQuad (st : PrepState) (s : ExtractedSprite) (colored : Bool) : PrepState :=
  if colored then
    { st with
      colored_vertices := st.colored_vertices ++ [s]
      colored_stop := st.colored_stop + 6
      z_order := s.transform.z }
  else
    { st with
      vertices := st.vertices ++ [s]
      white_stop := st.white_stop + 6
      z_order := s.transform.z }

/-- The emission block of the loop body (source lines
`let [start, end] = match colored {..}; if *start != *end {
commands.spawn()..insert(SpriteBatch {..}); *start = *end; }`): pick the
index pair of the kind selected by `colored`, and if its range is
non-empty spawn a `SpriteBatch` for it — tagged with the already-updated
`current_batch_handle` (passed here as `handle`) and `current_batch_colored`
(equal to `colored`) and the current `z_order` — then advance the start
index to the end index. -/
def emitIfNonempty (st : PrepState) (colored : Bool) (handle : HandleId) : PrepState :=
  if colored then
    if st.colored_start ≠ st.colored_stop then
      { st with
        batches := st.batches ++
          [{ range_start := st.colored_start
             range_stop := st.colored_stop
             image_handle_id := handle
             colored := colored
             z_order := st.z_order }]
        colored_start := st.colored_stop }
    else st
  else
    if st.white_start ≠ st.white_stop then
      { st with
        batches := st.batches ++
          [{ range_start := st.white_start
             range_stop := st.white_stop
             image_handle_id := handle
             colored := colored
             z_order := st.z_order }]
        white_start := st.white_stop }
    else st

/-- One iteration of the `prepare_sprites` loop over a drained
`extracted_sprite`.  On a boundary (handle or colored-classification
differs from the current batch) the GPU image is looked up: on a miss the
sprite is skipped (`continue`); on a hit the current-batch registers are
updated first, then the *new* kind's accumulated range is emitted via
`emitIfNonempty` (note the source emits the already-updated
`current_batch_handle`/`current_batch_colored` and the not-yet-updated
`z_order`), and finally the sprite's quad is written. -/
def prepareStep (gpu_images : HandleId → Option Vec2) (st : PrepState)
    (extracted_sprite : ExtractedSprite) : PrepState :=
  let colored : Bool := extracted_sprite.color != Color.WHITE
  if st.current_batch_handle != some extracted_sprite.image_handle_id
      || colored != st.current_batch_colored then
    match gpu_images extracted_sprite.image_handle_id with
    | some gpu_image_size =>
      writeQuad
        (emitIfNonempty
          { st with
            current_image_size := gpu_image_size
            current_batch_handle := some extracted_sprite.image_handle_id
            current_batch_colored := colored }
          colored extracted_sprite.image_handle_id)
        extracted_sprite colored
    | none => st
  else
    writeQuad st extracted_sprite colored

/-- The post-loop finalization of `prepare_sprites`: the index pair of the
kind selected by `current_batch_colored` is emitted as one last batch if
its range is non-empty.  (The `none` arm is unreachable: a non-empty range
implies some quad was written, which implies a batch handle was set; it is
kept only to make the function total.) -/
def prepareFinish (st : PrepState) : PrepState :=
  let se := if st.current_batch_colored then (st.colored_start, st.colored_stop)
            else (st.white_start, st.white_stop)
  if se.1 ≠ se.2 then
    match st.current_batch_handle with
    | some h =>
      { st with
        batches := st.batches ++
          [{ range_start := se.1
             range_stop := se.2
             image_handle_id := h
             colored := st.current_batch_colored
             z_order := st.z_order }] }
    | none => st
  else st

/-- `prepare_sprites`: clear the vertex buffers (the initial state), sort
the drained sprite list, run the batching loop, and finalize.  The final
`write_buffer` GPU uploads copy the buffers verbatim and are not modelled.
The resulting state carries the uploaded buffers (as quad lists) and the
emitted batches in spawn order. -/
def prepare_sprites (gpu_images : HandleId → Option Vec2)
    (extracted_sprites : List ExtractedSprite) : PrepState :=
  prepareFinish ((sortSprites extracted_sprites).foldl (prepareStep gpu_images) initPrepState)

/-- `AssetEvent<Image>`, carrying only the handle identity the embedded
code reads. -/
inductive ImageAssetEvent where
  | created (handle : HandleId)
  | modified (handle : HandleId)
  | removed (handle : HandleId)
deriving DecidableEq, Repr

/-- Opaque token for a GPU `BindGroup` object. -/
abbrev BindGroup := Nat

/-- `ImageBindGroups`: the persistent texture-handle → bind-group cache.
The `HashMap` is modelled as an association list; `HashMap::remove`
deletes every entry with the given key, and lookups use the first match. -/
abbrev ImageBindGroups := List (HandleId × BindGroup)

/-- The asset-event step at the top of `queue_sprites`: `Created` events
are ignored, `Modified` and `Removed` events remove the texture's entry
from the bind-group cache. -/
def queueProcessImageEvents (events : List ImageAssetEvent)
    (image_bind_groups : ImageBindGroups) : ImageBindGroups :=
  events.foldl
    (fun cache event =>
      match event with
      | .created _ => cache
      | .modified handle => cache.filter (fun entry => entry.1 != handle)
      | .removed handle => cache.filter (fun entry => entry.1 != handle))
    image_bind_groups

namespace SpritePipelineKey

/-- The `COLORED` flag: bit 0 of the key. -/
def COLORED : Nat := 1 <<< 0

/-- `MSAA_MASK_BITS = 0b111111`. -/
def MSAA_MASK_BITS : Nat := 63

/-- `MSAA_SHIFT_BITS = 32 - 6`. -/
def MSAA_SHIFT_BITS : Nat := 32 - 6

/-- `SpritePipelineKey::from_msaa_samples`, returning the `u32` bit
pattern of the key.  (The source's `from_bits(..).unwrap()` always
succeeds because the computed bits lie inside `MSAA_RESERVED_BITS`.)  The
`u32` subtraction `msaa_samples - 1` is modelled by `Nat` subtraction,
which agrees with it for every `msaa_samples ≥ 1` — the only inputs the
claims consider. -/
def from_msaa_samples (msaa_samples : Nat) : Nat :=
  ((msaa_samples - 1) &&& MSAA_MASK_BITS) <<< MSAA_SHIFT_BITS

/-- `SpritePipelineKey::msaa_samples`, decoding a key's bit pattern. -/
def msaa_samples (bits : Nat) : Nat :=
  ((bits >>> MSAA_SHIFT_BITS) &&& MSAA_MASK_BITS) + 1

end SpritePipelineKey

/-- Residency invariant of the `prepare_sprites` loop: the current batch
handle, every quad in either vertex buffer, and every spawned batch refer
to textures present in the `gpu_images` lookup. -/
def PrepResident (gpu_images : HandleId → Option Vec2) (st : PrepState) : Prop :=
  (∀ h, st.current_batch_handle = some h → (gpu_images h).isSome) ∧
  (∀ s ∈ st.vertices, (gpu_images s.image_handle_id).isSome) ∧
  (∀ s ∈ st.colored_vertices, (gpu_images s.image_handle_id).isSome) ∧
  (∀ b ∈ st.batches, (gpu_images b.image_handle_id).isSome)

/-- C9: for `1 ≤ n ≤ 64`, `from_msaa_samples n` is exactly `n - 1` shifted
into the top 6 bits of the 32-bit key (the key fits in a `u32` and the top
bits decode back to `n - 1`), the low `COLORED` bit is clear, and
`msaa_samples` recovers `n`. -/
theorem spritePipelineKey_roundtrip (n : Nat) (h1 : 1 ≤ n) (h64 : n ≤ 64) :
    SpritePipelineKey.from_msaa_samples n = (n - 1) <<< SpritePipelineKey.MSAA_SHIFT_BITS ∧
    SpritePipelineKey.from_msaa_samples n < 2 ^ 32 ∧
    SpritePipelineKey.from_msaa_samples n >>> SpritePipelineKey.MSAA_SHIFT_BITS = n - 1 ∧
    SpritePipelineKey.from_msaa_samples n &&& SpritePipelineKey.COLORED = 0 ∧
    SpritePipelineKey.msaa_samples (SpritePipelineKey.from_msaa_samples n) = n := by
  have hmask : (n - 1) &&& 63 = n - 1 := by
    have hmod := Nat.and_pow_two_sub_one_eq_mod (n - 1) 6
    norm_num at hmod
    rw [hmod]
    exact Nat.mod_eq_of_lt (by omega)
  have hkey : SpritePipelineKey.from_msaa_samples n =
      (n - 1) <<< SpritePipelineKey.MSAA_SHIFT_BITS := by
    unfold SpritePipelineKey.from_msaa_samples SpritePipelineKey.MSAA_MASK_BITS
    rw [hmask]
  have hshift : SpritePipelineKey.MSAA_SHIFT_BITS = 26 := by decide
  have hdec : SpritePipelineKey.from_msaa_samples n >>>
      SpritePipelineKey.MSAA_SHIFT_BITS = n - 1 := by
    rw [hkey, hshift, Nat.shiftLeft_eq, Nat.shiftRight_eq_div_pow]
    exact Nat.mul_div_cancel _ (by positivity)
  refine ⟨hkey, ?_, hdec, ?_, ?_⟩
  · rw [hkey, hshift, Nat.shiftLeft_eq]
    have hb : n - 1 ≤ 63 := by omega
    calc (n - 1) * 2 ^ 26 ≤ 63 * 2 ^ 26 := Nat.mul_le_mul_right _ hb
      _ < 2 ^ 32 := by norm_num
  · have hcol : SpritePipelineKey.COLORED = 1 := by decide
    rw [hkey, hshift, hcol, Nat.and_one_is_mod, Nat.shiftLeft_eq]
    have : (n - 1) * 2 ^ 26 = (n - 1) * 2 ^ 25 * 2 := by ring
    rw [this]
    exact Nat.mul_mod_left _ 2
  · unfold SpritePipelineKey.msaa_samples SpritePipelineKey.MSAA_MASK_BITS
    rw [hdec, hmask]
    omega

/-- Witness for C9 at the concrete sample count 4. -/
theorem spritePipelineKey_roundtrip_witness :
    SpritePipelineKey.from_msaa_samples 4 = 3 <<< SpritePipelineKey.MSAA_SHIFT_BITS ∧
    SpritePipelineKey.from_msaa_samples 4 < 2 ^ 32 ∧
    SpritePipelineKey.from_msaa_samples 4 >>> SpritePipelineKey.MSAA_SHIFT_BITS = 3 ∧
    SpritePipelineKey.from_msaa_samples 4 &&& SpritePipelineKey.COLORED = 0 ∧
    SpritePipelineKey.msaa_samples (SpritePipelineKey.from_msaa_samples 4) = 4 :=
  spritePipelineKey_roundtrip 4 (by decide) (by decide)

/-- The asset-event step only ever removes cache entries, never adds. -/
theorem queueProcessImageEvents_subset (events : List ImageAssetEvent) :
    ∀ (cache : ImageBindGroups), ∀ entry ∈ queueProcessImageEvents events cache,
      entry ∈ cache := by
  induction events with
  | nil => intro cache entry h; exact h
  | cons e rest ih =>
    intro cache entry h
    simp only [queueProcessImageEvents, List.foldl_cons] at h
    have hstep := ih _ entry h
    cases e with
    | created handle => exact hstep
    | modified handle => exact List.mem_of_mem_filter hstep
    | removed handle => exact List.mem_of_mem_filter hstep

/-- After a `Modified` or `Removed` event for `handle`, the processed
cache holds no entry keyed by `handle`. -/
theorem queueProcessImageEvents_removes (events : List ImageAssetEvent) :
    ∀ (cache : ImageBindGroups) (handle : HandleId),
      (ImageAssetEvent.modified handle ∈ events ∨ ImageAssetEvent.removed handle ∈ events) →
      ∀ entry ∈ queueProcessImageEvents events cache, entry.1 ≠ handle := by
  induction events with
  | nil => intro cache handle hev; rcases hev with h | h <;> cases h
  | cons e rest ih =>
    intro cache handle hev entry hentry
    simp only [queueProcessImageEvents, List.foldl_cons] at hentry
    by_cases he : e = ImageAssetEvent.modified handle ∨ e = ImageAssetEvent.removed handle
    · have hsub := queueProcessImageEvents_subset rest _ entry hentry
      rcases he with rfl | rfl <;>
      · have hp := List.of_mem_filter hsub
        exact fun hc => absurd hp (by simp [hc])
    · have hrest : ImageAssetEvent.modified handle ∈ rest ∨
          ImageAssetEvent.removed handle ∈ rest := by
        rcases hev with h | h
        · cases h with
          | head => exact absurd (Or.inl rfl) he
          | tail _ hmem => exact Or.inl hmem
        · cases h with
          | head => exact absurd (Or.inr rfl) he
          | tail _ hmem => exact Or.inr hmem
      exact ih _ handle hrest entry hentry

/-- Filtering out entries keyed by a different handle does not change a
lookup. -/
theorem lookup_filter_ne (cache : ImageBindGroups) (handle other : HandleId)
    (hne : other ≠ handle) :
    (cache.filter (fun entry => entry.1 != other)).lookup handle = cache.lookup handle := by
  induction cache with
  | nil => rfl
  | cons p rest ih =>
    by_cases hp : p.1 = other
    · have hkeep : (p.1 != other) = false := by simp [hp]
      have hkey : (handle == p.1) = false := by simp [hp, Ne.symm hne]
      simp [List.filter, hkeep, List.lookup, hkey, ih]
    · have hkeep : (p.1 != other) = true := by simp [hp]
      by_cases hk : handle = p.1
      · simp [List.filter, hkeep, List.lookup, hk]
      · simp [List.filter, hkeep, List.lookup, hk, ih]

/-- Events that never mention `handle` as modified/removed leave its
cached bind group untouched. -/
theorem queueProcessImageEvents_preserves (events : List ImageAssetEvent) :
    ∀ (cache : ImageBindGroups) (handle : HandleId),
      (∀ e ∈ events, e ≠ ImageAssetEvent.modified handle ∧
          e ≠ ImageAssetEvent.removed handle) →
      (queueProcessImageEvents events cache).lookup handle = cache.lookup handle := by
  induction events with
  | nil => intro cache handle _; rfl
  | cons e rest ih =>
    intro cache handle hev
    have hhead := hev e (by simp)
    have htail : ∀ e' ∈ rest, e' ≠ ImageAssetEvent.modified handle ∧
        e' ≠ ImageAssetEvent.removed handle := fun e' h => hev e' (by simp [h])
    cases e with
    | created h2 =>
      have hstep : queueProcessImageEvents (ImageAssetEvent.created h2 :: rest) cache =
          queueProcessImageEvents rest cache := rfl
      rw [hstep]
      exact ih _ handle htail
    | modified h2 =>
      have hne : h2 ≠ handle := by
        intro h; exact hhead.1 (by simp [h])
      have hstep : queueProcessImageEvents (ImageAssetEvent.modified h2 :: rest) cache =
          queueProcessImageEvents rest (cache.filter (fun entry => entry.1 != h2)) := rfl
      rw [hstep, ih _ handle htail, lookup_filter_ne cache handle h2 hne]
    | removed h2 =>
      have hne : h2 ≠ handle := by
        intro h; exact hhead.2 (by simp [h])
      have hstep : queueProcessImageEvents (ImageAssetEvent.removed h2 :: rest) cache =
          queueProcessImageEvents rest (cache.filter (fun entry => entry.1 != h2)) := rfl
      rw [hstep, ih _ handle htail, lookup_filter_ne cache handle h2 hne]

/-- C7: after the asset-event step of `queue_sprites`, a texture with a
`Modified` or `Removed` event this frame has no surviving (pre-frame)
entry in the bind-group cache, while a texture mentioned only by `Created`
events (or not at all) keeps its cached entry unchanged. -/
theorem queue_sprites_event_step (events : List ImageAssetEvent)
    (cache : ImageBindGroups) (handle : HandleId) :
    ((ImageAssetEvent.modified handle ∈ events ∨ ImageAssetEvent.removed handle ∈ events) →
      ∀ entry ∈ queueProcessImageEvents events cache, entry.1 ≠ handle) ∧
    ((∀ e ∈ events, e ≠ ImageAssetEvent.modified handle ∧
        e ≠ ImageAssetEvent.removed handle) →
      (queueProcessImageEvents events cache).lookup handle = cache.lookup handle) :=
  ⟨fun hev => queueProcessImageEvents_removes events cache handle hev,
   fun hev => queueProcessImageEvents_preserves events cache handle hev⟩

/-- Witness for C7: one frame with a `Modified 5` event and a `Created 6`
event over a cache holding bind groups for textures 5 and 6. -/
theorem queue_sprites_event_step_witness :
    (∀ entry ∈ queueProcessImageEvents
        [ImageAssetEvent.created 5, ImageAssetEvent.modified 5, ImageAssetEvent.created 6]
        [(5, 100), (6, 200)], entry.1 ≠ 5) ∧
    (queueProcessImageEvents
        [ImageAssetEvent.created 5, ImageAssetEvent.modified 5, ImageAssetEvent.created 6]
        [(5, 100), (6, 200)]).lookup 6 = [((5 : HandleId), (100 : BindGroup)), (6, 200)].lookup 6 :=
  ⟨(queue_sprites_event_step
      [ImageAssetEvent.created 5, ImageAssetEvent.modified 5, ImageAssetEvent.created 6]
      [(5, 100), (6, 200)] 5).1 (Or.inl (by decide)),
   (queue_sprites_event_step
      [ImageAssetEvent.created 5, ImageAssetEvent.modified 5, ImageAssetEvent.created 6]
      [(5, 100), (6, 200)] 6).2 (by decide)⟩

/-- C1: refuted on the code.  Input: two sprites with the same resident
texture 7, the first opaque white (z = 0), the second tinted (z = 1).
The white sprite's six vertices go to the uncolored buffer
(`white_stop = 6`, one quad), but the only batch ever emitted is the
colored one: the loop boundary at the tinted sprite selects the colored
index pair (which is still empty, so nothing is emitted), and the
post-loop finalization only looks at the kind of the *last* batch
(`current_batch_colored = true`).  The uncolored buffer's indices
`0..6` are covered by no batch, so the emitted ranges do not partition
both uploaded vertex buffers. -/
theorem prepare_sprites_uncovered_tail :
    (prepare_sprites (fun _ => some 5)
      [{ transform := ⟨0⟩, color := 0, rect := none, custom_size := none,
         image_handle_id := 7, flip_x := false, flip_y := false, anchor := 0 },
       { transform := ⟨1⟩, color := 1, rect := none, custom_size := none,
         image_handle_id := 7, flip_x := false, flip_y := false, anchor := 0 }]).batches =
      [{ range_start := 0, range_stop := 6, image_handle_id := 7,
         colored := true, z_order := 1 }] ∧
    (prepare_sprites (fun _ => some 5)
      [{ transform := ⟨0⟩, color := 0, rect := none, custom_size := none,
         image_handle_id := 7, flip_x := false, flip_y := false, anchor := 0 },
       { transform := ⟨1⟩, color := 1, rect := none, custom_size := none,
         image_handle_id := 7, flip_x := false, flip_y := false, anchor := 0 }]).white_stop = 6 ∧
    (prepare_sprites (fun _ => some 5)
      [{ transform := ⟨0⟩, color := 0, rect := none, custom_size := none,
         image_handle_id := 7, flip_x := false, flip_y := false, anchor := 0 },
       { transform := ⟨1⟩, color := 1, rect := none, custom_size := none,
         image_handle_id := 7, flip_x := false, flip_y := false, anchor := 0 }]).vertices.length
      = 1 := by
  decide

/-- C2: refuted on the code.  Input: two opaque-white sprites with
distinct resident textures 1 (z = 0) and 2 (z = 1).  When the second
sprite opens its batch boundary, the source first overwrites
`current_batch_handle` with the *new* handle 2 and only then emits the
accumulated range `0..6` — which holds the quad of the texture-1 sprite —
so that batch is tagged `image_handle_id = 2`, not 1. -/
theorem prepare_sprites_wrong_batch_handle :
    (prepare_sprites (fun _ => some 5)
      [{ transform := ⟨0⟩, color := 0, rect := none, custom_size := none,
         image_handle_id := 1, flip_x := false, flip_y := false, anchor := 0 },
       { transform := ⟨1⟩, color := 0, rect := none, custom_size := none,
         image_handle_id := 2, flip_x := false, flip_y := false, anchor := 0 }]).batches =
      [{ range_start := 0, range_stop := 6, image_handle_id := 2,
         colored := false, z_order := 0 },
       { range_start := 6, range_stop := 12, image_handle_id := 2,
         colored := false, z_order := 1 }] ∧
    ((prepare_sprites (fun _ => some 5)
      [{ transform := ⟨0⟩, color := 0, rect := none, custom_size := none,
         image_handle_id := 1, flip_x := false, flip_y := false, anchor := 0 },
       { transform := ⟨1⟩, color := 0, rect := none, custom_size := none,
         image_handle_id := 2, flip_x := false, flip_y := false, anchor := 0 }]).vertices.map
       (fun s => s.image_handle_id)) = [1, 2] := by
  decide

/-- C3: refuted on the code.  Input: three sprites sharing resident
texture 5 — white (z = 0), tinted (z = 1), white (z = 2).  The batch
covering uncolored vertices `0..6` contains only the z = 0 sprite's quad,
yet it is emitted with `z_order = 1`: the single mutable `z_order`
variable was last written by the *tinted* sprite, whose vertices live in
the other (colored) buffer. -/
theorem prepare_sprites_wrong_z_order :
    (prepare_sprites (fun _ => some 5)
      [{ transform := ⟨0⟩, color := 0, rect := none, custom_size := none,
         image_handle_id := 5, flip_x := false, flip_y := false, anchor := 0 },
       { transform := ⟨1⟩, color := 1, rect := none, custom_size := none,
         image_handle_id := 5, flip_x := false, flip_y := false, anchor := 0 },
       { transform := ⟨2⟩, color := 0, rect := none, custom_size := none,
         image_handle_id := 5, flip_x := false, flip_y := false, anchor := 0 }]).batches =
      [{ range_start := 0, range_stop := 6, image_handle_id := 5,
         colored := false, z_order := 1 },
       { range_start := 6, range_stop := 12, image_handle_id := 5,
         colored := false, z_order := 2 }] ∧
    ((prepare_sprites (fun _ => some 5)
      [{ transform := ⟨0⟩, color := 0, rect := none, custom_size := none,
         image_handle_id := 5, flip_x := false, flip_y := false, anchor := 0 },
       { transform := ⟨1⟩, color := 1, rect := none, custom_size := none,
         image_handle_id := 5, flip_x := false, flip_y := false, anchor := 0 },
       { transform := ⟨2⟩, color := 0, rect := none, custom_size := none,
         image_handle_id := 5, flip_x := false, flip_y := false, anchor := 0 }]).vertices.map
       (fun s => s.transform.z)) = [0, 2] := by
  decide

/-- C4: refuted on the code.  Input: two consecutive opaque-white sprites
with the same resident texture 7 (z = 0 and z = 1) followed by a tinted
sprite (z = 2).  The two matching sprites are written contiguously into
the uncolored buffer (`white_stop = 12`), but the only batch ever emitted
is the colored one `0..6`: the uncolored run is never finalized, so there
is no batch in which the two matching sprites are placed at all, let
alone together. -/
theorem prepare_sprites_unmerged_run :
    (prepare_sprites (fun _ => some 5)
      [{ transform := ⟨0⟩, color := 0, rect := none, custom_size := none,
         image_handle_id := 7, flip_x := false, flip_y := false, anchor := 0 },
       { transform := ⟨1⟩, color := 0, rect := none, custom_size := none,
         image_handle_id := 7, flip_x := false, flip_y := false, anchor := 0 },
       { transform := ⟨2⟩, color := 1, rect := none, custom_size := none,
         image_handle_id := 7, flip_x := false, flip_y := false, anchor := 0 }]).batches =
      [{ range_start := 0, range_stop := 6, image_handle_id := 7,
         colored := true, z_order := 2 }] ∧
    (prepare_sprites (fun _ => some 5)
      [{ transform := ⟨0⟩, color := 0, rect := none, custom_size := none,
         image_handle_id := 7, flip_x := false, flip_y := false, anchor := 0 },
       { transform := ⟨1⟩, color := 0, rect := none, custom_size := none,
         image_handle_id := 7, flip_x := false, flip_y := false, anchor := 0 },
       { transform := ⟨2⟩, color := 1, rect := none, custom_size := none,
         image_handle_id := 7, flip_x := false, flip_y := false, anchor := 0 }]).white_stop
      = 12 := by
  decide

/-- Characterization of the "not greater" relation induced by the sort
comparator: it is the lexicographic depth-then-handle order. -/
theorem spriteCmp_ne_gt_iff (a b : ExtractedSprite) :
    (spriteCmp a b ≠ Ordering.gt) ↔
      (a.transform.z < b.transform.z ∨
        (a.transform.z = b.transform.z ∧ a.image_handle_id ≤ b.image_handle_id)) := by
  unfold spriteCmp zPartialCmp handleCmp
  split_ifs <;> simp_all <;> unfold HandleId at * <;> omega

instance : IsTotal ExtractedSprite (fun a b => spriteCmp a b ≠ Ordering.gt) :=
  ⟨by
    intro a b
    rw [spriteCmp_ne_gt_iff, spriteCmp_ne_gt_iff]
    unfold HandleId at *
    omega⟩

instance : IsTrans ExtractedSprite (fun a b => spriteCmp a b ≠ Ordering.gt) :=
  ⟨by
    intro a b c hab hbc
    rw [spriteCmp_ne_gt_iff] at hab hbc ⊢
    unfold HandleId at *
    omega⟩

/-- C5: the sort step of `prepare_sprites` produces a permutation of the
extracted sprites ordered by ascending depth `z`, with exact depth ties
ordered by texture-handle comparison: whenever one sprite precedes
another in the sorted list, either its `z` is strictly smaller, or the
depths are equal and its texture handle is `≤` the other's.  In
particular a pair with distinct depths is ordered by depth and a pair
with equal depths and distinct handles is ordered by handle, independent
of the original order. -/
theorem sortSprites_sorted (sprites : List ExtractedSprite) :
    List.Perm (sortSprites sprites) sprites ∧
    (sortSprites sprites).Pairwise (fun a b =>
      a.transform.z < b.transform.z ∨
        (a.transform.z = b.transform.z ∧ a.image_handle_id ≤ b.image_handle_id)) := by
  refine ⟨List.perm_insertionSort _ sprites, ?_⟩
  have hs := List.sorted_insertionSort (fun a b => spriteCmp a b ≠ Ordering.gt) sprites
  exact List.Pairwise.imp (fun hab => (spriteCmp_ne_gt_iff _ _).mp hab) hs

/-- Writing a quad preserves residency when the written sprite's texture
is resident. -/
theorem writeQuad_resident (gpu_images : HandleId → Option Vec2) (st : PrepState)
    (s : ExtractedSprite) (colored : Bool) (hres : PrepResident gpu_images st)
    (hs : (gpu_images s.image_handle_id).isSome) :
    PrepResident gpu_images (writeQuad st s colored) := by
  obtain ⟨hcur, hw, hc, hb⟩ := hres
  unfold writeQuad
  cases colored
  · refine ⟨hcur, ?_, hc, hb⟩
    intro x hx
    rcases List.mem_append.mp hx with hx | hx
    · exact hw x hx
    · rw [List.mem_singleton.mp hx]; exact hs
  · refine ⟨hcur, hw, ?_, hb⟩
    intro x hx
    rcases List.mem_append.mp hx with hx | hx
    · exact hc x hx
    · rw [List.mem_singleton.mp hx]; exact hs

/-- The emission block preserves residency when the emitted handle is
resident. -/
theorem emitIfNonempty_resident (gpu_images : HandleId → Option Vec2) (st : PrepState)
    (colored : Bool) (handle : HandleId) (hres : PrepResident gpu_images st)
    (hh : (gpu_images handle).isSome) :
    PrepResident gpu_images (emitIfNonempty st colored handle) := by
  obtain ⟨hcur, hw, hc, hb⟩ := hres
  unfold emitIfNonempty
  cases colored
  · by_cases hne : st.white_start ≠ st.white_stop
    · simp only [Bool.false_eq_true, if_false, if_pos hne]
      refine ⟨hcur, hw, hc, ?_⟩
      intro x hx
      rcases List.mem_append.mp hx with hx | hx
      · exact hb x hx
      · rw [List.mem_singleton.mp hx]; exact hh
    · simp only [Bool.false_eq_true, if_false, if_neg hne]
      exact ⟨hcur, hw, hc, hb⟩
  · by_cases hne : st.colored_start ≠ st.colored_stop
    · simp only [if_true, if_pos hne]
      refine ⟨hcur, hw, hc, ?_⟩
      intro x hx
      rcases List.mem_append.mp hx with hx | hx
      · exact hb x hx
      · rw [List.mem_singleton.mp hx]; exact hh
    · simp only [if_true, if_neg hne]
      exact ⟨hcur, hw, hc, hb⟩

/-- One loop iteration preserves residency. -/
theorem prepareStep_resident (gpu_images : HandleId → Option Vec2) (st : PrepState)
    (s : ExtractedSprite) (hres : PrepResident gpu_images st) :
    PrepResident gpu_images (prepareStep gpu_images st s) := by
  unfold prepareStep
  dsimp only
  split
  next hcond =>
    split
    case _ sz heq =>
      refine writeQuad_resident _ _ _ _ ?_ (by simp [heq])
      refine emitIfNonempty_resident _ _ _ _ ?_ (by simp [heq])
      obtain ⟨hcur, hw, hc, hb⟩ := hres
      refine ⟨?_, hw, hc, hb⟩
      intro h hh
      simp only [Option.some.injEq] at hh
      rw [← hh]
      simp [heq]
    case _ heq => exact hres
  next hcond =>
    obtain ⟨hcur, hw, hc, hb⟩ := hres
    have hmatch : st.current_batch_handle = some s.image_handle_id := by
      simp only [Bool.or_eq_true, bne_iff_ne, ne_eq, not_or, Decidable.not_not] at hcond
      exact hcond.1
    exact writeQuad_resident _ _ _ _ ⟨hcur, hw, hc, hb⟩ (hcur _ hmatch)

/-- The whole batching loop preserves residency. -/
theorem foldl_prepareStep_resident (gpu_images : HandleId → Option Vec2)
    (sprites : List ExtractedSprite) :
    ∀ st : PrepState, PrepResident gpu_images st →
      PrepResident gpu_images (sprites.foldl (prepareStep gpu_images) st) := by
  induction sprites with
  | nil => intro st h; exact h
  | cons s rest ih =>
    intro st h
    exact ih _ (prepareStep_resident gpu_images st s h)

/-- The cleared initial state is trivially resident. -/
theorem initPrepState_resident (gpu_images : HandleId → Option Vec2) :
    PrepResident gpu_images initPrepState := by
  refine ⟨fun h hh => ?_, fun s hs => ?_, fun s hs => ?_, fun b hb => ?_⟩ <;>
    simp [initPrepState] at *

/-- Finalization preserves residency: the last batch, if any, is tagged
with the current batch handle, which the invariant knows to be resident. -/
theorem prepareFinish_resident (gpu_images : HandleId → Option Vec2) (st : PrepState)
    (hres : PrepResident gpu_images st) :
    PrepResident gpu_images (prepareFinish st) := by
  obtain ⟨hcur, hw, hc, hb⟩ := hres
  unfold prepareFinish
  dsimp only
  cases hcm : st.current_batch_handle with
  | none => split <;> split <;> exact ⟨hcur, hw, hc, hb⟩
  | some h =>
    have hgpu := hcur h hcm
    have hcur2 : ∀ h2 : HandleId, (some h : Option HandleId) = some h2 →
        (gpu_images h2).isSome := by
      intro h2 hh2
      injection hh2 with he
      rw [← he]
      exact hgpu
    split <;> split
    all_goals
      first
        | exact ⟨hcur, hw, hc, hb⟩
        | (refine ⟨hcur2, hw, hc, ?_⟩
           intro x hx
           rcases List.mem_append.mp hx with hx | hx
           · exact hb x hx
           · rw [List.mem_singleton.mp hx]; exact hgpu)

/-- C6: a texture identity absent from the GPU-texture lookup never
appears in the output of `prepare_sprites`: no emitted batch carries it
and no quad (six-vertex group) of either vertex buffer was written for a
sprite using it — sprites with a missing texture are silently skipped and
contribute zero vertices.  (The model is total: the miss is handled by
`continue`, never by an error path.) -/
theorem prepare_sprites_texture_miss (gpu_images : HandleId → Option Vec2)
    (sprites : List ExtractedSprite) (h : HandleId) (hmiss : gpu_images h = none) :
    (∀ b ∈ (prepare_sprites gpu_images sprites).batches, b.image_handle_id ≠ h) ∧
    (∀ s ∈ (prepare_sprites gpu_images sprites).vertices, s.image_handle_id ≠ h) ∧
    (∀ s ∈ (prepare_sprites gpu_images sprites).colored_vertices, s.image_handle_id ≠ h) := by
  have hres : PrepResident gpu_images (prepare_sprites gpu_images sprites) := by
    unfold prepare_sprites
    exact prepareFinish_resident gpu_images _
      (foldl_prepareStep_resident gpu_images _ initPrepState
        (initPrepState_resident gpu_images))
  obtain ⟨hcur, hw, hc, hb⟩ := hres
  refine ⟨fun b hbm hbad => ?_, fun s hsm hbad => ?_, fun s hsm hbad => ?_⟩
  · have := hb b hbm; rw [hbad, hmiss] at this; simp at this
  · have := hw s hsm; rw [hbad, hmiss] at this; simp at this
  · have := hc s hsm; rw [hbad, hmiss] at this; simp at this

/-- Witness for C6: texture 2 is absent from a lookup that only knows
texture 1, and a sprite referencing texture 2 produces no batch and no
vertices. -/
theorem prepare_sprites_texture_miss_witness :
    (∀ b ∈ (prepare_sprites (fun k => if k = 1 then some 5 else none)
        [{ transform := ⟨0⟩, color := 0, rect := none, custom_size := none,
           image_handle_id := 2, flip_x := false, flip_y := false, anchor := 0 }]).batches,
      b.image_handle_id ≠ 2) ∧
    (∀ s ∈ (prepare_sprites (fun k => if k = 1 then some 5 else none)
        [{ transform := ⟨0⟩, color := 0, rect := none, custom_size := none,
           image_handle_id := 2, flip_x := false, flip_y := false, anchor := 0 }]).vertices,
      s.image_handle_id ≠ 2) ∧
    (∀ s ∈ (prepare_sprites (fun k => if k = 1 then some 5 else none)
        [{ transform := ⟨0⟩, color := 0, rect := none, custom_size := none,
           image_handle_id := 2, flip_x := false, flip_y := false, anchor := 0 }]).colored_vertices,
      s.image_handle_id ≠ 2) :=
  prepare_sprites_texture_miss (fun k => if k = 1 then some 5 else none)
    [{ transform := ⟨0⟩, color := 0, rect := none, custom_size := none,
       image_handle_id := 2, flip_x := false, flip_y := false, anchor := 0 }] 2 (by decide)

/-- C8: refuted on the code.  `extract_sprites` contains no clear of the
`ExtractedSprites` list: with a non-empty prior content and empty queries
(no sprite-like entities this frame), the list after extraction still
holds the carried-over record instead of being exactly this frame's
(empty) output. -/
theorem extract_sprites_keeps_prior :
    extract_sprites
      [{ transform := ⟨0⟩, color := 0, rect := none, custom_size := none,
         image_handle_id := 9, flip_x := false, flip_y := false, anchor := 0 }]
      (fun _ => none) [] [] =
      some [{ transform := ⟨0⟩, color := 0, rect := none, custom_size := none,
              image_handle_id := 9, flip_x := false, flip_y := false, anchor := 0 }] ∧
    extract_sprites
      [{ transform := ⟨0⟩, color := 0, rect := none, custom_size := none,
         image_handle_id := 9, flip_x := false, flip_y := false, anchor := 0 }]
      (fun _ => none) [] [] ≠ some [] := by
  refine ⟨rfl, ?_⟩
  decide

/-- The plain-sprite loop appends to the accumulated list: prior contents
are preserved in front of this frame's records. -/
theorem extractPlainSprites_append (q : List SpriteQueryItem) :
    ∀ acc : List ExtractedSprite,
      extractPlainSprites acc q = acc ++ extractPlainSprites [] q := by
  induction q with
  | nil => intro acc; simp [extractPlainSprites]
  | cons item rest ih =>
    intro acc
    unfold extractPlainSprites at ih ⊢
    rw [List.foldl_cons, List.foldl_cons]
    by_cases hv : item.is_visible = true
    · simp only [hv, if_true]
      rw [ih]
      conv_rhs => rw [ih]
      simp only [List.nil_append, List.append_assoc]
    · simp only [hv, if_false]
      exact ih acc

/-- The atlas-sprite loop appends to the accumulated list (or fails for
any accumulator alike). -/
theorem extractAtlasSprites_append (texture_atlases : HandleId → Option TextureAtlas)
    (q : List AtlasQueryItem) :
    ∀ acc : List ExtractedSprite,
      extractAtlasSprites texture_atlases acc q =
        (extractAtlasSprites texture_atlases [] q).map (fun produced => acc ++ produced) := by
  induction q with
  | nil => intro acc; simp [extractAtlasSprites]
  | cons item rest ih =>
    intro acc
    by_cases hv : item.is_visible = true
    · cases hat : texture_atlases item.texture_atlas_handle with
      | none =>
        simp only [extractAtlasSprites, hv, if_true, hat]
        exact ih acc
      | some atlas =>
        cases hget : atlas.textures.get? item.atlas_sprite.index with
        | none =>
          simp only [extractAtlasSprites, hv, if_true, hat, hget]
          rfl
        | some r =>
          simp only [extractAtlasSprites, hv, if_true, hat, hget]
          rw [ih]
          conv_rhs => rw [ih]
          cases extractAtlasSprites texture_atlases [] rest <;>
            simp [List.append_assoc]
    · simp only [extractAtlasSprites, hv, if_false]
      exact ih acc

/-- C8 (amended): `extract_sprites` never clears the frame-scoped list;
it *appends* this frame's records (from the visible plain and atlas
sprites) after whatever the list already held, and it is `prepare_sprites`
(which drains the list) that empties it each frame.  Formally: running
extraction over prior contents equals prepending those contents to the
records extraction produces from an empty list; extraction has no output
other than this list. -/
theorem extract_sprites_appends (prior : List ExtractedSprite)
    (texture_atlases : HandleId → Option TextureAtlas)
    (sprite_query : List SpriteQueryItem) (atlas_query : List AtlasQueryItem) :
    extract_sprites prior texture_atlases sprite_query atlas_query =
      (extract_sprites [] texture_atlases sprite_query atlas_query).map
        (fun produced => prior ++ produced) := by
  unfold extract_sprites
  rw [extractPlainSprites_append sprite_query prior,
      extractAtlasSprites_append texture_atlases atlas_query
        (prior ++ extractPlainSprites [] sprite_query),
      extractAtlasSprites_append texture_atlases atlas_query
        (extractPlainSprites [] sprite_query)]
  cases extractAtlasSprites texture_atlases [] atlas_query <;>
    simp [List.append_assoc]

/-- Under the in-bounds precondition, the atlas loop never hits the
unchecked-index panic. -/
theorem extractAtlasSprites_total (texture_atlases : HandleId → Option TextureAtlas) :
    ∀ (q : List AtlasQueryItem) (acc : List ExtractedSprite),
      (∀ item ∈ q, item.is_visible = true →
        ∀ atlas, texture_atlases item.texture_atlas_handle = some atlas →
          item.atlas_sprite.index < atlas.textures.length) →
      (extractAtlasSprites texture_atlases acc q).isSome := by
  intro q
  induction q with
  | nil => intro acc _; simp [extractAtlasSprites]
  | cons item rest ih =>
    intro acc hpre
    have htail : ∀ i ∈ rest, i.is_visible = true →
        ∀ atlas, texture_atlases i.texture_atlas_handle = some atlas →
          i.atlas_sprite.index < atlas.textures.length :=
      fun i hi => hpre i (List.mem_cons_of_mem _ hi)
    by_cases hv : item.is_visible = true
    · cases hat : texture_atlases item.texture_atlas_handle with
      | none =>
        simp only [extractAtlasSprites, hv, if_true, hat]
        exact ih _ htail
      | some atlas =>
        have hlt := hpre item (List.mem_cons_self _ _) hv atlas hat
        have hget := List.get?_eq_get hlt
        simp only [extractAtlasSprites, hv, if_true, hat, hget]
        exact ih _ htail
    · simp only [extractAtlasSprites, hv, if_false]
      exact ih _ htail

/-- A visible atlas sprite whose resolvable atlas has too short a
`textures` list makes the whole extraction panic (`none`), whatever else
the queries contain. -/
theorem extractAtlasSprites_panics (texture_atlases : HandleId → Option TextureAtlas) :
    ∀ (q : List AtlasQueryItem) (acc : List ExtractedSprite),
      (∃ item ∈ q, item.is_visible = true ∧
        ∃ atlas, texture_atlases item.texture_atlas_handle = some atlas ∧
          atlas.textures.length ≤ item.atlas_sprite.index) →
      extractAtlasSprites texture_atlases acc q = none := by
  intro q
  induction q with
  | nil => intro acc h; obtain ⟨item, hmem, _⟩ := h; cases hmem
  | cons hd rest ih =>
    intro acc hex
    obtain ⟨item, hmem, hvis, atlas, hat, hlen⟩ := hex
    cases hmem with
    | head =>
      simp only [extractAtlasSprites, hvis, if_true, hat,
        List.get?_eq_none.mpr hlen]
    | tail _ hmem =>
      have hrest : ∃ i ∈ rest, i.is_visible = true ∧
          ∃ atlas, texture_atlases i.texture_atlas_handle = some atlas ∧
            atlas.textures.length ≤ i.atlas_sprite.index :=
        ⟨item, hmem, hvis, atlas, hat, hlen⟩
      by_cases hv : hd.is_visible = true
      · cases hat2 : texture_atlases hd.texture_atlas_handle with
        | none =>
          simp only [extractAtlasSprites, hv, if_true, hat2]
          exact ih _ hrest
        | some atlas2 =>
          cases hget2 : atlas2.textures.get? hd.atlas_sprite.index with
          | none => simp only [extractAtlasSprites, hv, if_true, hat2, hget2]
          | some r =>
            simp only [extractAtlasSprites, hv, if_true, hat2, hget2]
            exact ih _ hrest
      · simp only [extractAtlasSprites, hv, if_false]
        exact ih _ hrest

/-- C10: the atlas sub-rectangle lookup
`texture_atlas.textures[atlas_sprite.index as usize]` is unchecked, so
extraction is total exactly under the precondition that every visible
atlas sprite whose atlas resolves has its index within the atlas's
`textures` list: under the precondition the out-of-bounds (panic) branch
is unreachable, and with any visible, resolvable atlas sprite whose index
is out of bounds the whole extraction panics (`none`) instead of skipping
that sprite. -/
theorem extract_sprites_atlas_bounds (prior : List ExtractedSprite)
    (texture_atlases : HandleId → Option TextureAtlas)
    (sprite_query : List SpriteQueryItem) (atlas_query : List AtlasQueryItem) :
    ((∀ item ∈ atlas_query, item.is_visible = true →
        ∀ atlas, texture_atlases item.texture_atlas_handle = some atlas →
          item.atlas_sprite.index < atlas.textures.length) →
      (extract_sprites prior texture_atlases sprite_query atlas_query).isSome) ∧
    ((∃ item ∈ atlas_query, item.is_visible = true ∧
        ∃ atlas, texture_atlases item.texture_atlas_handle = some atlas ∧
          atlas.textures.length ≤ item.atlas_sprite.index) →
      extract_sprites prior texture_atlases sprite_query atlas_query = none) :=
  ⟨fun hpre => extractAtlasSprites_total texture_atlases atlas_query _ hpre,
   fun hex => extractAtlasSprites_panics texture_atlases atlas_query _ hex⟩

/-- Witness for C10: an atlas with a single sub-rectangle; index 0 is in
bounds and extraction succeeds, index 5 is out of bounds and extraction
panics. -/
theorem extract_sprites_atlas_bounds_witness :
    (extract_sprites [] (fun k => if k = 1 then some ⟨3, [10]⟩ else none) []
      [⟨true, ⟨0, 0, none, false, false, 0⟩, ⟨0⟩, 1⟩]).isSome ∧
    extract_sprites [] (fun k => if k = 1 then some ⟨3, [10]⟩ else none) []
      [⟨true, ⟨0, 5, none, false, false, 0⟩, ⟨0⟩, 1⟩] = none :=
  ⟨(extract_sprites_atlas_bounds [] (fun k => if k = 1 then some ⟨3, [10]⟩ else none) []
      [⟨true, ⟨0, 0, none, false, false, 0⟩, ⟨0⟩, 1⟩]).1
    (by
      intro item hmem hv atlas hat
      rw [List.mem_singleton] at hmem
      subst hmem
      have hat2 : (some (⟨3, [10]⟩ : TextureAtlas) : Option TextureAtlas) = some atlas := hat
      injection hat2 with he
      rw [← he]
      decide),
   (extract_sprites_atlas_bounds [] (fun k => if k = 1 then some ⟨3, [10]⟩ else none) []
      [⟨true, ⟨0, 5, none, false, false, 0⟩, ⟨0⟩, 1⟩]).2
    ⟨⟨true, ⟨0, 5, none, false, false, 0⟩, ⟨0⟩, 1⟩, List.mem_singleton.mpr rfl, rfl,
      ⟨3, [10]⟩, rfl, by decide⟩⟩
